import Mathlib

/-!
# Verification of the twitter-central-api fleet coordinator (`src/app.py`)

Shallow embedding of the in-memory fleet coordinator: the three module-level
maps (`device_statuses`, `command_queues`, `recent_activities`), the device
endpoints (heartbeat, activity logging, command drain), the control endpoints
(`add_command`, `emergency_stop_all`), the staleness eviction
(`cleanup_offline_devices`) and the monitoring endpoints (`get_all_status`,
`get_analytics`).

Conventions of the embedding:
* JSON values are modelled by `JVal`; JSON numbers are rationals (`ℚ`), which
  is exact for the integer sums and the guarded divisions the code performs.
* Python dicts are modelled by insertion-ordered association lists
  (`alookup` / `aset` / `aerase` mirror `d.get`, `d[k] = v`, `del d[k]`).
* Wall-clock instants are epoch seconds (`Int`).  A stored `last_seen` string
  is a `TimeStr`: either a well-formed ISO timestamp for some instant
  (`TimeStr.iso t`, what `datetime.now().isoformat()` writes) or a string
  `datetime.fromisoformat` rejects (`TimeStr.malformed`).
* Each handler takes the current instant(s) explicitly; fallible Python code
  (attribute errors, parse errors) is modelled with `Except` / error results.
-/

/-- A JSON value as manipulated by the Python code.  Numbers are rationals. -/
inductive JVal where
  | null : JVal
  | bool (b : Bool) : JVal
  | num (q : ℚ) : JVal
  | str (s : String) : JVal
  | arr (elems : List JVal) : JVal
  | obj (fields : List (String × JVal)) : JVal
deriving Repr

/-- `alookup k l` is Python `l[k]` / `l.get(k)` on an insertion-ordered dict:
the value at the first (for a well-formed dict, only) binding of `k`. -/
def alookup {α : Type} (k : String) : List (String × α) → Option α
  | [] => none
  | (k₁, v) :: rest => if k = k₁ then some v else alookup k rest

/-- `aset k v l` is Python `l[k] = v`: update the existing binding in place,
or append a new binding at the end (dicts preserve insertion order). -/
def aset {α : Type} (k : String) (v : α) : List (String × α) → List (String × α)
  | [] => [(k, v)]
  | (k₁, v₁) :: rest => if k = k₁ then (k, v) :: rest else (k₁, v₁) :: aset k v rest

/-- `aerase k l` is Python `del l[k]`: drop the first binding of `k`. -/
def aerase {α : Type} (k : String) : List (String × α) → List (String × α)
  | [] => []
  | (k₁, v₁) :: rest => if k = k₁ then rest else (k₁, v₁) :: aerase k rest

/-- Python `fields.get(k, d)` on a dict known to be a dict. -/
def jget (fields : List (String × JVal)) (k : String) (d : JVal) : JVal :=
  (alookup k fields).getD d

/-- A stored timestamp string: either the ISO rendering of instant `t`
(as written by `datetime.now().isoformat()`), or a malformed string. -/
inductive TimeStr where
  | iso (t : Int) : TimeStr
  | malformed (s : String) : TimeStr
deriving Repr, DecidableEq

/-- `datetime.fromisoformat` on a stored timestamp string: recovers the
instant of a well-formed string, raises `ValueError` on a malformed one. -/
def fromisoformat : TimeStr → Except String Int
  | .iso t => .ok t
  | .malformed s => .error ("ValueError: Invalid isoformat string: " ++ s)

/-- The source's minutes test `(now - t) / 60 > 10` (real arithmetic,
`src/app.py` lines 301-303) is exactly the strict 600-second test. -/
theorem stale_iff (now t : Int) : ((now - t : ℚ) / 60 > 10) ↔ 600 < now - t := by
  rw [gt_iff_lt, lt_div_iff₀ (by norm_num : (0 : ℚ) < 60)]
  constructor
  · intro h
    have h₂ : ((600 : ℤ) : ℚ) < ((now - t : ℤ) : ℚ) := by push_cast; linarith
    exact_mod_cast h₂
  · intro h
    have h₂ : ((600 : ℤ) : ℚ) < ((now - t : ℤ) : ℚ) := by exact_mod_cast h
    push_cast at h₂
    linarith

/-- A `Decidable` instance for the minutes test that evaluates by integer
comparison (the library's rational-order instance does not reduce in the
kernel); semantically identical by `stale_iff`. -/
instance (priority := 2000) decStaleTest (now t : Int) :
    Decidable ((now - t : ℚ) / 60 > 10) :=
  decidable_of_iff (600 < now - t) (stale_iff now t).symm

/-- A `Decidable` instance for the analytics zero-denominator guards
`x > 0` on rationals that evaluates by integer comparison of the numerator
(the library's instance does not reduce); semantically identical by
`Rat.num_pos`. -/
instance (priority := 2000) decRatGtZero (q : ℚ) : Decidable (q > 0) :=
  decidable_of_iff (0 < q.num) Rat.num_pos

/-- The `last_activity` field: a timestamp string or the sentinel `"Never"`. -/
inductive LastActivity where
  | never : LastActivity
  | at (t : Int) : LastActivity
deriving Repr, DecidableEq

/-- One value of the `device_statuses` dict, as written by `device_heartbeat`
(`src/app.py` lines 41-51).  The agent-reported fields are unvalidated JSON. -/
structure DeviceStatus where
  status : String
  last_seen : TimeStr
  uptime_hours : JVal
  cpu_usage : JVal
  actions_today : JVal
  next_scheduled : JVal
  content_version : JVal
  twitter_logged_in : JVal
  last_activity : LastActivity
deriving Repr

/-- One entry of a device's `recent_activities` list
(`src/app.py` lines 69-75). -/
structure ActivityEntry where
  timestamp : Int
  action : JVal
  success : JVal
  details : JVal
  content_preview : JVal
deriving Repr

/-- One queued command, as built by `add_command` (`src/app.py` lines 285-290).
`command_id` is the action name joined with the coarse epoch second;
`timestamp` is the full instant of creation. -/
structure Command where
  command_id : String
  action : String
  parameters : List (String × JVal)
  timestamp : Int
deriving Repr

/-- The three module-level maps of `src/app.py` (lines 24-26). -/
structure ServerState where
  device_statuses : List (String × DeviceStatus)
  command_queues : List (String × List Command)
  recent_activities : List (String × List ActivityEntry)
deriving Repr

/-- The empty state at process start. -/
def initState : ServerState := ⟨[], [], []⟩

/-- `device_heartbeat` (`src/app.py` lines 30-54): compute `last_activity`
from the head of the device's activity list, then overwrite the status row.
`report` is the parsed JSON body (`request.json or {}`). -/
def device_heartbeat (now : Int) (device_id : String)
    (report : List (String × JVal)) (s : ServerState) : ServerState :=
  let last_activity : LastActivity :=
    match alookup device_id s.recent_activities with
    | some (e :: _) => .at e.timestamp
    | _ => .never
  let st : DeviceStatus :=
    { status := "online"
      last_seen := .iso now
      uptime_hours := jget report "uptime_hours" (.num 0)
      cpu_usage := jget report "cpu_usage" (.num 0)
      actions_today := jget report "actions_today" (.obj [])
      next_scheduled := jget report "next_scheduled" .null
      content_version := jget report "content_version" (.str "unknown")
      twitter_logged_in := jget report "twitter_logged_in" (.bool false)
      last_activity := last_activity }
  { s with device_statuses := aset device_id st s.device_statuses }

/-- Python slicing `v[:100]` as applied to `content_preview`
(`src/app.py` line 74): character-based on strings, element-based on lists;
any other JSON value (number, boolean, null, object) raises `TypeError`. -/
def previewTrunc : JVal → Except String JVal
  | .str s => .ok (.str (s.take 100))
  | .arr xs => .ok (.arr (xs.take 100))
  | _ => .error "TypeError: unsubscriptable object"

/-- The `activity_entry` dict built by `log_device_activity`
(`src/app.py` lines 69-75): defaults for missing fields, `content_preview`
sliced to its first 100 characters at insertion time; building the dict
raises when the reported `content_preview` is not sliceable. -/
def mkActivityEntry (now : Int) (activity : List (String × JVal)) :
    Except String ActivityEntry :=
  match previewTrunc (jget activity "content_preview" (.str "")) with
  | .error e => .error e
  | .ok preview =>
    .ok { timestamp := now
          action := jget activity "action" (.str "unknown")
          success := jget activity "success" (.bool false)
          details := jget activity "details" (.str "")
          content_preview := preview }

/-- `log_device_activity` (`src/app.py` lines 60-89): ensure the device's
activity list exists (lines 66-67, before the entry is built, so the empty
binding persists on a raise), build the entry with defaults, insert at the
front, keep the most recent 50, and touch the status row's `last_activity`
when the device is registered.  A raise while building the entry reaches the
handler's `except` (`{'success': False, 'error': ...}`, 500): the raised
message is returned and no entry is inserted anywhere. -/
def log_device_activity (now : Int) (device_id : String)
    (activity : List (String × JVal)) (s : ServerState) :
    Option String × ServerState :=
  let activities₀ :=
    match alookup device_id s.recent_activities with
    | some _ => s.recent_activities
    | none => aset device_id [] s.recent_activities
  let s₀ := { s with recent_activities := activities₀ }
  match mkActivityEntry now activity with
  | .error e => (some e, s₀)
  | .ok entry =>
    let oldLog := (alookup device_id s₀.recent_activities).getD []
    let newLog := (entry :: oldLog).take 50
    let statuses :=
      match alookup device_id s₀.device_statuses with
      | some st =>
        aset device_id { st with last_activity := .at now } s₀.device_statuses
      | none => s₀.device_statuses
    (none, { s₀ with recent_activities := aset device_id newLog s₀.recent_activities
                     device_statuses := statuses })

/-- `get_pending_commands` (`src/app.py` lines 91-105): read the queue with
default `[]`, then unconditionally assign `[]` to the device's key. -/
def get_pending_commands (device_id : String) (s : ServerState) :
    List Command × ServerState :=
  let commands := (alookup device_id s.command_queues).getD []
  (commands, { s with command_queues := aset device_id [] s.command_queues })

/-- The command dict built by `add_command` (`src/app.py` lines 285-290):
`command_id` is `action + "_" + int(now)`, the coarse epoch second. -/
def mkCommand (now : Int) (action : String)
    (params : List (String × JVal)) : Command :=
  { command_id := action ++ "_" ++ toString now
    action := action
    parameters := params
    timestamp := now }

/-- `add_command` (`src/app.py` lines 280-292): ensure the queue exists, build
the command, append at the tail. -/
def add_command (now : Int) (device_id : String) (action : String)
    (params : List (String × JVal)) (s : ServerState) : ServerState :=
  let queues :=
    match alookup device_id s.command_queues with
    | some _ => s.command_queues
    | none => aset device_id [] s.command_queues
  let command : Command := mkCommand now action params
  let q := (alookup device_id queues).getD []
  { s with command_queues := aset device_id (q ++ [command]) queues }

/-- The loop body of `emergency_stop_all` (`src/app.py` lines 134-138):
walk the registry's key list, enqueue one `emergency_stop` per key, collect
the keys.  `clock i` is the wall clock at the `i`-th iteration (the code reads
`datetime.now()` afresh inside each `add_command`). -/
def broadcastLoop (clock : Nat → Int) : Nat → List String → ServerState →
    ServerState × List String
  | _, [], s => (s, [])
  | i, id :: rest, s =>
    let s₁ := add_command (clock i) id "emergency_stop"
      [("priority", .str "critical")] s
    let r := broadcastLoop clock (i + 1) rest s₁
    (r.1, id :: r.2)

/-- `emergency_stop_all` (`src/app.py` lines 130-147): broadcast over the keys
of `device_statuses` at invocation time; returns the targeted ids. -/
def emergency_stop_all (clock : Nat → Int) (s : ServerState) :
    ServerState × List String :=
  broadcastLoop clock 0 (s.device_statuses.map Prod.fst) s

/-- The loop of `cleanup_offline_devices` (`src/app.py` lines 299-305):
walk a snapshot of the registry entries; an unparseable `last_seen` raises
(leaving deletions already made in place); an entry strictly more than
10 minutes old (`(now - t) / 60 > 10` in real arithmetic) is deleted. -/
def cleanupLoop (now : Int) : List (String × DeviceStatus) →
    List (String × DeviceStatus) → Option String × List (String × DeviceStatus)
  | [], m => (none, m)
  | (device_id, st) :: rest, m =>
    match fromisoformat st.last_seen with
    | .error e => (some e, m)
    | .ok t =>
      if ((now - t : ℚ) / 60 > 10) then cleanupLoop now rest (aerase device_id m)
      else cleanupLoop now rest m

/-- `cleanup_offline_devices` (`src/app.py` lines 294-305).  Returns the
raised error message (if any) together with the state as left behind:
deletions performed before a raise persist. -/
def cleanup_offline_devices (now : Int) (s : ServerState) :
    Option String × ServerState :=
  let r := cleanupLoop now s.device_statuses s.device_statuses
  (r.1, { s with device_statuses := r.2 })

/-- The response of `/api/status/all`: either the 200 payload, or the JSON
body and HTTP code of the `except` branch (`src/app.py` line 165). -/
inductive StatusAllResp where
  | ok (devices : List (String × DeviceStatus))
       (recent : List (String × List ActivityEntry))
       (total_devices : Nat) (online_devices : Nat) : StatusAllResp
  | err (body : List (String × JVal)) (code : Nat) : StatusAllResp
deriving Repr

/-- `get_all_status` (`src/app.py` lines 151-165): evict stale devices, then
report the registry; a raise inside eviction reaches the handler's `except`
and yields `({'error': str(e)}, 500)` over the partially evicted state. -/
def get_all_status (now : Int) (s : ServerState) : StatusAllResp × ServerState :=
  let r := cleanup_offline_devices now s
  match r.1 with
  | some e => (.err [("error", .str e)] 500, r.2)
  | none =>
    (.ok r.2.device_statuses r.2.recent_activities
      r.2.device_statuses.length
      (r.2.device_statuses.countP (fun p => p.2.status = "online")),
     r.2)

/-- Python numeric coercion for `+` / `sum` accumulation: numbers are
themselves, booleans are 0/1, anything else raises `TypeError`. -/
def pyNum : JVal → Except String ℚ
  | .num q => .ok q
  | .bool b => .ok (if b then 1 else 0)
  | _ => .error "TypeError: unsupported operand type(s) for +"

/-- Python `v.get(k, d)`: succeeds exactly on dicts, otherwise the attribute
lookup raises `AttributeError` (`src/app.py` lines 186-188 apply this to an
unvalidated `actions_today`). -/
def pyDictGet (v : JVal) (k : String) (d : JVal) : Except String JVal :=
  match v with
  | .obj fields => .ok (jget fields k d)
  | _ => .error "AttributeError: object has no attribute get"

/-- Python `sum(vs)` over dict values: left fold of numeric coercion. -/
def pySum : List JVal → Except String ℚ
  | [] => .ok 0
  | v :: rest => do
    let q ← pyNum v
    let r ← pySum rest
    .ok (q + r)

/-- `sum(actions_today.values()) if isinstance(actions_today, dict) else 0`
(`src/app.py` lines 189 and 201). -/
def totalOfActions (actions_today : JVal) : Except String ℚ :=
  match actions_today with
  | .obj fields => pySum (fields.map Prod.snd)
  | _ => .ok 0

/-- Accumulators of the first analytics loop (`src/app.py` lines 178-190). -/
structure Totals where
  actions : ℚ
  tweets : ℚ
  replies : ℚ
  retweets : ℚ
  uptime : ℚ
deriving Repr, DecidableEq

/-- The first analytics loop (`src/app.py` lines 184-190), in statement
order: the three category gets (each an attribute access on the unvalidated
`actions_today`), the `isinstance`-guarded sum, then the uptime addition. -/
def analyticsTotals : List DeviceStatus → Except String Totals
  | [] => .ok ⟨0, 0, 0, 0, 0⟩
  | st :: rest => do
    let tw ← pyDictGet st.actions_today "tweets" (.num 0) >>= pyNum
    let rp ← pyDictGet st.actions_today "replies" (.num 0) >>= pyNum
    let rt ← pyDictGet st.actions_today "retweets" (.num 0) >>= pyNum
    let sa ← totalOfActions st.actions_today
    let up ← pyNum st.uptime_hours
    let acc ← analyticsTotals rest
    .ok ⟨sa + acc.actions, tw + acc.tweets, rp + acc.replies,
         rt + acc.retweets, up + acc.uptime⟩

/-- One element of `device_details` (`src/app.py` lines 203-213).
`memory_usage` is read with `.get('memory_usage', 0)` but the heartbeat never
stores that key, so it is always the default 0. -/
structure DeviceDetail where
  id : String
  name : String
  status : String
  uptime_hours : JVal
  actions_today : JVal
  total_actions : ℚ
  last_activity : LastActivity
  cpu_usage : JVal
  memory_usage : JVal
deriving Repr

/-- The `device_details` loop (`src/app.py` lines 198-213). -/
def deviceDetails : List (String × DeviceStatus) → Except String (List DeviceDetail)
  | [] => .ok []
  | (device_id, st) :: rest => do
    let tda ← totalOfActions st.actions_today
    let d : DeviceDetail :=
      { id := device_id
        name := device_id.replace "bot_" ""
        status := st.status
        uptime_hours := st.uptime_hours
        actions_today := st.actions_today
        total_actions := tda
        last_activity := st.last_activity
        cpu_usage := st.cpu_usage
        memory_usage := .num 0 }
    let ds ← deviceDetails rest
    .ok (d :: ds)

/-- The full `analytics_data` record (`src/app.py` lines 219-244), flattened. -/
structure AnalyticsData where
  total_devices : Nat
  online_devices : Nat
  offline_devices : Nat
  total_uptime_hours : ℚ
  average_uptime_hours : ℚ
  total_actions : ℚ
  tweets : ℚ
  replies : ℚ
  retweets : ℚ
  tweet_percentage : ℚ
  reply_percentage : ℚ
  retweet_percentage : ℚ
  device_details : List DeviceDetail
  avg_actions_per_device : ℚ
  uptime_percentage : ℚ
  action_efficiency : ℚ
  device_health_score : ℚ
  top_performers : List DeviceDetail
deriving Repr

/-- The response of `/api/status/analytics`: the 200 analytics payload or the
`({'error': str(e)}, 500)` of the `except` branch (`src/app.py` line 252). -/
inductive AnalyticsResp where
  | ok (data : AnalyticsData) : AnalyticsResp
  | err (body : List (String × JVal)) (code : Nat) : AnalyticsResp
deriving Repr

/-- `get_analytics` (`src/app.py` lines 167-252): evict stale devices, run the
aggregation loops, compute the guarded ratios, sort `device_details` by
`total_actions` descending (Python's stable sort) and take the top 3.  Any
raise (eviction parse error, attribute/type error on unvalidated fields)
reaches the `except` branch. -/
def get_analytics (now : Int) (s : ServerState) : AnalyticsResp × ServerState :=
  let r := cleanup_offline_devices now s
  match r.1 with
  | some e => (.err [("error", .str e)] 500, r.2)
  | none =>
    let s₁ := r.2
    let devices := s₁.device_statuses
    let total_devices := devices.length
    let online_devices : Nat :=
      devices.countP (fun p => p.2.status = "online")
    match analyticsTotals (devices.map Prod.snd) with
    | .error e => (.err [("error", .str e)] 500, s₁)
    | .ok t =>
      match deviceDetails devices with
      | .error e => (.err [("error", .str e)] 500, s₁)
      | .ok details =>
        let avg_uptime := if total_devices > 0 then t.uptime / total_devices else 0
        let uptime_percentage :=
          if total_devices > 0 then (online_devices : ℚ) / total_devices * 100 else 0
        let avg_actions_per_device :=
          if total_devices > 0 then t.actions / total_devices else 0
        let sorted := details.mergeSort
          (fun a b => decide (b.total_actions ≤ a.total_actions))
        let data : AnalyticsData :=
          { total_devices := total_devices
            online_devices := online_devices
            offline_devices := total_devices - online_devices
            total_uptime_hours := t.uptime
            average_uptime_hours := avg_uptime
            total_actions := t.actions
            tweets := t.tweets
            replies := t.replies
            retweets := t.retweets
            tweet_percentage :=
              if t.actions > 0 then t.tweets / t.actions * 100 else 0
            reply_percentage :=
              if t.actions > 0 then t.replies / t.actions * 100 else 0
            retweet_percentage :=
              if t.actions > 0 then t.retweets / t.actions * 100 else 0
            device_details := sorted
            avg_actions_per_device := avg_actions_per_device
            uptime_percentage := uptime_percentage
            action_efficiency :=
              if t.uptime > 0 then t.actions / t.uptime else 0
            device_health_score :=
              if total_devices > 0 then (online_devices : ℚ) / total_devices * 100 else 0
            top_performers := sorted.take 3 }
        (.ok data, s₁)

/-! ## Association-list lemmas -/

theorem alookup_aset_self {α : Type} (k : String) (v : α) (l : List (String × α)) :
    alookup k (aset k v l) = some v := by
  induction l with
  | nil => simp [aset, alookup]
  | cons p rest ih =>
    by_cases h : k = p.1
    · simp [aset, alookup, h]
    · simp [aset, alookup, h, ih]

theorem alookup_aset_ne {α : Type} {k k₂ : String} (v : α) (l : List (String × α))
    (h : k₂ ≠ k) : alookup k₂ (aset k v l) = alookup k₂ l := by
  induction l with
  | nil => simp [aset, alookup, h]
  | cons p rest ih =>
    by_cases hk : k = p.1
    · subst hk
      simp [aset, alookup, h, ih]
    · by_cases hk₂ : k₂ = p.1
      · simp [aset, alookup, hk, hk₂]
      · simp [aset, alookup, hk, hk₂, ih]

theorem aerase_sublist {α : Type} (k : String) (l : List (String × α)) :
    (aerase k l).Sublist l := by
  induction l with
  | nil => simp [aerase]
  | cons p rest ih =>
    by_cases h : k = p.1
    · simp [aerase, h]
    · simpa [aerase, h] using ih.cons₂ p

theorem alookup_eq_none {α : Type} (k : String) (l : List (String × α))
    (h : k ∉ l.map Prod.fst) : alookup k l = none := by
  induction l with
  | nil => rfl
  | cons p rest ih =>
    simp only [List.map_cons, List.mem_cons] at h
    push_neg at h
    simp [alookup, h.1, ih h.2]

theorem aerase_head {α : Type} (k : String) (v : α) (l : List (String × α)) :
    aerase k ((k, v) :: l) = l := by
  simp [aerase]

theorem aerase_ne_head {α : Type} {k k₁ : String} (v : α) (l : List (String × α))
    (h : k ≠ k₁) : aerase k ((k₁, v) :: l) = (k₁, v) :: aerase k l := by
  simp [aerase, h]

/-! ## C2: drain is read-and-clear (at-most-once delivery) -/

/-- **C2.** For every device id whose queue is non-empty, `get_pending_commands`
returns the entire current queue content and leaves the queue empty, so a
second drain with no intervening enqueue returns an empty list. -/
theorem drain_at_most_once (s : ServerState) (device_id : String)
    (q : List Command) (hq : alookup device_id s.command_queues = some q)
    (_hne : q ≠ []) :
    (get_pending_commands device_id s).1 = q ∧
    alookup device_id (get_pending_commands device_id s).2.command_queues
      = some [] ∧
    (get_pending_commands device_id (get_pending_commands device_id s).2).1 = [] := by
  refine ⟨by simp [get_pending_commands, hq], ?_, ?_⟩
  · simp [get_pending_commands, alookup_aset_self]
  · simp [get_pending_commands, alookup_aset_self]

/-- A state holding one queued `stop_bot` command for device `"dev"`. -/
def c2State : ServerState := add_command 5 "dev" "stop_bot" [] initState

/-- The single command queued in `c2State`. -/
def c2Cmd : Command :=
  { command_id := "stop_bot_5", action := "stop_bot", parameters := [],
    timestamp := 5 }

/-- Witness for **C2** at a concrete one-command queue. -/
theorem drain_at_most_once_witness :
    (get_pending_commands "dev" c2State).1 = [c2Cmd] ∧
    alookup "dev" (get_pending_commands "dev" c2State).2.command_queues
      = some [] ∧
    (get_pending_commands "dev" (get_pending_commands "dev" c2State).2).1 = [] :=
  drain_at_most_once c2State "dev" [c2Cmd] rfl (by simp)

/-! ## C10: polling an unknown id leaves a persistent empty binding -/

/-- **C10.** Draining any device id — including one never seen before —
returns `[]` when nothing is queued, leaves the command-queue map containing
that id bound to the empty list, and changes no other id's queue. -/
theorem drain_unknown_id_persists (s : ServerState) (device_id : String) :
    (alookup device_id s.command_queues = none →
      (get_pending_commands device_id s).1 = []) ∧
    alookup device_id
      (get_pending_commands device_id s).2.command_queues = some [] ∧
    (∀ id₂, id₂ ≠ device_id →
      alookup id₂ (get_pending_commands device_id s).2.command_queues
        = alookup id₂ s.command_queues) := by
  refine ⟨fun h => by simp [get_pending_commands, h], ?_, fun id₂ h => ?_⟩
  · simp [get_pending_commands, alookup_aset_self]
  · simp [get_pending_commands, alookup_aset_ne _ _ h]

/-- Witness for **C10**: polling `"nobody"` on the initial state. -/
theorem drain_unknown_id_persists_witness :
    (get_pending_commands "nobody" initState).1 = [] ∧
    alookup "nobody"
      (get_pending_commands "nobody" initState).2.command_queues = some [] ∧
    alookup "other"
      (get_pending_commands "nobody" initState).2.command_queues = none :=
  ⟨(drain_unknown_id_persists initState "nobody").1 rfl,
   (drain_unknown_id_persists initState "nobody").2.1,
   ((drain_unknown_id_persists initState "nobody").2.2 "other"
     (by decide)).trans rfl⟩

/-! ## C6: heartbeat contract -/

/-- The status row written by `device_heartbeat`: the exact record of
`src/app.py` lines 41-51. -/
def heartbeatStatus (now : Int) (device_id : String)
    (report : List (String × JVal)) (s : ServerState) : DeviceStatus :=
  { status := "online"
    last_seen := .iso now
    uptime_hours := jget report "uptime_hours" (.num 0)
    cpu_usage := jget report "cpu_usage" (.num 0)
    actions_today := jget report "actions_today" (.obj [])
    next_scheduled := jget report "next_scheduled" .null
    content_version := jget report "content_version" (.str "unknown")
    twitter_logged_in := jget report "twitter_logged_in" (.bool false)
    last_activity :=
      match alookup device_id s.recent_activities with
      | some (e :: _) => .at e.timestamp
      | _ => .never }

/-- `device_heartbeat` stores exactly `heartbeatStatus` under the device id. -/
theorem heartbeat_lookup (now : Int) (device_id : String)
    (report : List (String × JVal)) (s : ServerState) :
    alookup device_id (device_heartbeat now device_id report s).device_statuses
      = some (heartbeatStatus now device_id report s) :=
  alookup_aset_self device_id _ s.device_statuses

/-- **C6.** After `device_heartbeat` for device D, the registry contains D
with status `"online"` and `last_seen` equal to the call instant (hence at
least the call instant); missing report fields take the documented defaults;
and the stored `last_activity` is the timestamp of the most recent entry of
D's activity log, or the `"Never"` sentinel when that log is empty or absent. -/
theorem heartbeat_contract (now : Int) (device_id : String)
    (report : List (String × JVal)) (s : ServerState) :
    ∃ st : DeviceStatus,
      alookup device_id
        (device_heartbeat now device_id report s).device_statuses = some st ∧
      st.status = "online" ∧
      st.last_seen = .iso now ∧
      (alookup "uptime_hours" report = none → st.uptime_hours = .num 0) ∧
      (alookup "cpu_usage" report = none → st.cpu_usage = .num 0) ∧
      (alookup "actions_today" report = none → st.actions_today = .obj []) ∧
      (alookup "content_version" report = none →
        st.content_version = .str "unknown") ∧
      (alookup "twitter_logged_in" report = none →
        st.twitter_logged_in = .bool false) ∧
      st.last_activity =
        (match alookup device_id s.recent_activities with
         | some (e :: _) => .at e.timestamp
         | _ => .never) := by
  refine ⟨heartbeatStatus now device_id report s,
    heartbeat_lookup now device_id report s, rfl, rfl,
    fun h => ?_, fun h => ?_, fun h => ?_, fun h => ?_, fun h => ?_, rfl⟩
  · simp only [heartbeatStatus, jget, h, Option.getD_none]
  · simp only [heartbeatStatus, jget, h, Option.getD_none]
  · simp only [heartbeatStatus, jget, h, Option.getD_none]
  · simp only [heartbeatStatus, jget, h, Option.getD_none]
  · simp only [heartbeatStatus, jget, h, Option.getD_none]

/-- Witness for **C6**: a heartbeat with an empty report on the empty state. -/
theorem heartbeat_contract_witness :
    ∃ st : DeviceStatus,
      alookup "dev" (device_heartbeat 7 "dev" [] initState).device_statuses
        = some st ∧
      st.status = "online" ∧ st.last_seen = .iso 7 ∧
      st.uptime_hours = .num 0 ∧ st.cpu_usage = .num 0 ∧
      st.actions_today = .obj [] ∧ st.content_version = .str "unknown" ∧
      st.twitter_logged_in = .bool false ∧ st.last_activity = .never := by
  obtain ⟨st, h1, h2, h3, h4, h5, h6, h7, h8, h9⟩ :=
    heartbeat_contract 7 "dev" [] initState
  exact ⟨st, h1, h2, h3, h4 rfl, h5 rfl, h6 rfl, h7 rfl, h8 rfl, h9.trans rfl⟩

/-! ## C7: bounded, most-recent-first activity log -/

/-- Character count of a truncated string: `s.take n` has at most `n`
characters. -/
theorem strTake_length_le (s : String) (n : Nat) : (s.take n).length ≤ n := by
  rw [String.take_eq]
  exact List.length_take_le n s.1

/-- A binding found after `aset` is the freshly written one or was already
present. -/
theorem aset_lookup_cases {α : Type} (k k₂ : String) (v : α)
    (m : List (String × α)) (l : α) (h : alookup k₂ (aset k v m) = some l) :
    (k₂ = k ∧ l = v) ∨ alookup k₂ m = some l := by
  by_cases hk : k₂ = k
  · subst hk
    rw [alookup_aset_self] at h
    exact Or.inl ⟨rfl, (Option.some_injective _ h).symm⟩
  · rw [alookup_aset_ne _ _ hk] at h
    exact Or.inr h

/-- Inserting the timestamps `ts` in order for device `"dev"`, each with an
empty activity report. -/
def c7Insert : List Int → ServerState → ServerState
  | [], s => s
  | t :: rest, s => c7Insert rest (log_device_activity t "dev" [] s).2

/-- The activity log of `"dev"` after inserting 51 entries with timestamps
`0, 1, ..., 50` into the empty state. -/
def c7Final : List ActivityEntry :=
  (alookup "dev"
    (c7Insert ((List.range 51).map (fun i => (i : Int))) initState).recent_activities).getD []

/-- Strictly descending order of a timestamp list: each entry is newer than
the next (most-recent-first). -/
def strictlyDescending : List Int → Bool
  | [] => true
  | [_] => true
  | a :: b :: rest => decide (b < a) && strictlyDescending (b :: rest)

/-- **C7.** Every successful append inserts the new entry at index 0 and
keeps the most recent 50 entries; the 50-entry bound is preserved by every
call, successful or not; a string `content_preview` is truncated to at most
100 characters at insertion time; when building the entry raises (a
non-sliceable `content_preview`, `src/app.py` line 74) the error is
surfaced, no log gains an entry and the registry is untouched; and after
inserting 51 entries (timestamps 0..50), the log holds exactly 50 entries in
strictly most-recent-first order and the first-inserted entry (timestamp 0)
is absent. -/
theorem activity_log_invariant :
    (∀ (now : Int) (device_id : String) (act : List (String × JVal))
      (s : ServerState) (entry : ActivityEntry),
      mkActivityEntry now act = .ok entry →
      (alookup device_id
        (log_device_activity now device_id act s).2.recent_activities).getD []
        = (entry :: (alookup device_id s.recent_activities).getD []).take 50) ∧
    (∀ (now : Int) (device_id : String) (act : List (String × JVal))
      (s : ServerState),
      (∀ id₂ log, alookup id₂ s.recent_activities = some log →
        log.length ≤ 50) →
      ∀ id₂ log₂, alookup id₂
        (log_device_activity now device_id act s).2.recent_activities
          = some log₂ →
      log₂.length ≤ 50) ∧
    (∀ (now : Int) (act : List (String × JVal)) (p : String),
      jget act "content_preview" (.str "") = .str p →
      ∃ entry, mkActivityEntry now act = .ok entry ∧
        entry.content_preview = .str (p.take 100) ∧
        (p.take 100).length ≤ 100) ∧
    (∀ (now : Int) (device_id : String) (act : List (String × JVal))
      (s : ServerState) (e : String),
      mkActivityEntry now act = .error e →
      (alookup device_id
        (log_device_activity now device_id act s).2.recent_activities).getD []
        = (alookup device_id s.recent_activities).getD [] ∧
      (log_device_activity now device_id act s).2.device_statuses
        = s.device_statuses ∧
      (log_device_activity now device_id act s).1 = some e) ∧
    (c7Final.length = 50 ∧
     c7Final.head?.map (fun e => e.timestamp) = some 50 ∧
     strictlyDescending (c7Final.map (fun e => e.timestamp)) = true ∧
     ∀ e ∈ c7Final, e.timestamp ≠ 0) := by
  refine ⟨fun now device_id act s entry h => ?_,
    fun now device_id act s hbound id₂ log₂ h₂ => ?_,
    fun now act p h => ?_,
    fun now device_id act s e hmk => ?_, ?_⟩
  · cases halx : alookup device_id s.recent_activities with
    | none => simp [log_device_activity, h, halx, alookup_aset_self]
    | some l => simp [log_device_activity, h, halx, alookup_aset_self]
  · cases hmk : mkActivityEntry now act with
    | error e =>
      simp only [log_device_activity, hmk] at h₂
      cases halx : alookup device_id s.recent_activities with
      | some l =>
        simp only [halx] at h₂
        exact hbound id₂ log₂ h₂
      | none =>
        simp only [halx] at h₂
        rcases aset_lookup_cases _ _ _ _ _ h₂ with ⟨_, rfl⟩ | h₃
        · simp
        · exact hbound id₂ log₂ h₃
    | ok entry =>
      simp only [log_device_activity, hmk] at h₂
      rcases aset_lookup_cases _ _ _ _ _ h₂ with ⟨_, rfl⟩ | h₃
      · exact List.length_take_le 50 _
      · cases halx : alookup device_id s.recent_activities with
        | some l =>
          simp only [halx] at h₃
          exact hbound id₂ log₂ h₃
        | none =>
          simp only [halx] at h₃
          rcases aset_lookup_cases _ _ _ _ _ h₃ with ⟨_, rfl⟩ | h₄
          · simp
          · exact hbound id₂ log₂ h₄
  · refine ⟨{ timestamp := now
              action := jget act "action" (.str "unknown")
              success := jget act "success" (.bool false)
              details := jget act "details" (.str "")
              content_preview := .str (p.take 100) }, ?_, rfl,
      strTake_length_le p 100⟩
    simp [mkActivityEntry, h, previewTrunc]
  · refine ⟨?_, by simp [log_device_activity, hmk],
      by simp [log_device_activity, hmk]⟩
    simp only [log_device_activity, hmk]
    cases halx : alookup device_id s.recent_activities with
    | some l => simp [halx]
    | none => simp [halx, alookup_aset_self]
  · refine ⟨by decide, by decide, by decide, by decide⟩

/-- Witness for **C7**: one successful insertion into the empty state, a
preview that is its own 100-character truncation, and a non-sliceable
preview whose raise is surfaced with no state change. -/
theorem activity_log_invariant_witness :
    ((alookup "dev"
      (log_device_activity 3 "dev" [] initState).2.recent_activities).getD []
      = [{ timestamp := 3, action := .str "unknown", success := .bool false,
           details := .str "", content_preview := .str ("".take 100) }]) ∧
    (∃ entry,
      mkActivityEntry 3 [("content_preview", JVal.str "hello")] = .ok entry ∧
      entry.content_preview = .str ("hello".take 100) ∧
      ("hello".take 100).length ≤ 100) ∧
    ((alookup "dev"
      (log_device_activity 7 "dev" [("content_preview", JVal.num 5)]
        initState).2.recent_activities).getD []
      = (alookup "dev" initState.recent_activities).getD [] ∧
     (log_device_activity 7 "dev" [("content_preview", JVal.num 5)]
        initState).2.device_statuses = initState.device_statuses ∧
     (log_device_activity 7 "dev" [("content_preview", JVal.num 5)]
        initState).1 = some "TypeError: unsubscriptable object") :=
  ⟨(activity_log_invariant.1 3 "dev" [] initState
      { timestamp := 3, action := .str "unknown", success := .bool false,
        details := .str "", content_preview := .str ("".take 100) }
      rfl).trans rfl,
   activity_log_invariant.2.2.1 3 [("content_preview", JVal.str "hello")]
     "hello" rfl,
   activity_log_invariant.2.2.2.1 7 "dev" [("content_preview", JVal.num 5)]
     initState "TypeError: unsubscriptable object" rfl⟩

/-! ## C3: eviction removes exactly the stale status rows -/

/-- A stored timestamp `datetime.fromisoformat` accepts. -/
def parseable : TimeStr → Bool
  | .iso _ => true
  | .malformed _ => false

/-- The eviction condition of `src/app.py` lines 300-303 on one registry
entry: parsed `last_seen` strictly more than 10 minutes before `now`. -/
def staleB (now : Int) (p : String × DeviceStatus) : Bool :=
  match p.2.last_seen with
  | .iso t => decide ((now - t : ℚ) / 60 > 10)
  | .malformed _ => false

/-- Entries whose keys the loop never visits are untouched by it. -/
theorem cleanupLoop_notin (now : Int) (l : List (String × DeviceStatus))
    (id : String) (st : DeviceStatus) :
    ∀ m : List (String × DeviceStatus), id ∉ l.map Prod.fst →
    cleanupLoop now l ((id, st) :: m)
      = ((cleanupLoop now l m).1, (id, st) :: (cleanupLoop now l m).2) := by
  induction l with
  | nil => intro m _; simp [cleanupLoop]
  | cons p rest ih =>
    intro m h
    obtain ⟨pid, pst⟩ := p
    simp only [List.map_cons, List.mem_cons] at h
    push_neg at h
    obtain ⟨h₁, h₂⟩ := h
    cases hts : pst.last_seen with
    | malformed str =>
      have hfrom : fromisoformat pst.last_seen
          = .error ("ValueError: Invalid isoformat string: " ++ str) := by
        rw [hts]; rfl
      simp [cleanupLoop, hfrom]
    | iso t =>
      have hfrom : fromisoformat pst.last_seen = .ok t := by rw [hts]; rfl
      simp only [cleanupLoop, hfrom]
      by_cases hst : ((now - t : ℚ) / 60 > 10)
      · rw [if_pos hst, if_pos hst,
          aerase_ne_head st m (fun hh => h₁ hh.symm), ih _ h₂]
      · rw [if_neg hst, if_neg hst, ih _ h₂]

/-- Running the loop over a snapshot of the registry itself (unique keys,
all timestamps well-formed) filters out exactly the stale entries. -/
theorem cleanupLoop_self (now : Int) :
    ∀ m : List (String × DeviceStatus), (m.map Prod.fst).Nodup →
    m.all (fun p => parseable p.2.last_seen) = true →
    cleanupLoop now m m = (none, m.filter (fun p => !staleB now p)) := by
  intro m
  induction m with
  | nil => intro _ _; rfl
  | cons p m₀ ih =>
    intro hnd hp
    obtain ⟨pid, pst⟩ := p
    simp only [List.map_cons, List.nodup_cons] at hnd
    simp only [List.all_cons, Bool.and_eq_true] at hp
    obtain ⟨hpp, hp₀⟩ := hp
    cases hts : pst.last_seen with
    | malformed str => rw [hts] at hpp; simp [parseable] at hpp
    | iso t =>
      have hfrom : fromisoformat pst.last_seen = .ok t := by rw [hts]; rfl
      simp only [cleanupLoop, hfrom]
      by_cases hst : ((now - t : ℚ) / 60 > 10)
      · rw [if_pos hst, aerase_head, ih hnd.2 hp₀]
        have hsb : staleB now (pid, pst) = true := by
          simp [staleB, hts, hst]
        simp [List.filter_cons, hsb]
      · rw [if_neg hst, cleanupLoop_notin now m₀ pid pst m₀ hnd.1,
          ih hnd.2 hp₀]
        have hsb : staleB now (pid, pst) = false := by
          simp [staleB, hts, hst]
        simp [List.filter_cons, hsb]

/-- **C3.** For every state (with well-formed stored timestamps) and every
instant `now`, eviction removes exactly the status rows whose `last_seen` is
strictly more than 10 minutes (600 seconds) older than `now`, keeps every
other status row unchanged (in order), raises nothing, and leaves every
device's activity log and command queue untouched. -/
theorem eviction_exact (now : Int) (s : ServerState)
    (hnd : (s.device_statuses.map Prod.fst).Nodup)
    (hp : s.device_statuses.all (fun p => parseable p.2.last_seen) = true) :
    (cleanup_offline_devices now s).1 = none ∧
    (cleanup_offline_devices now s).2.device_statuses
      = s.device_statuses.filter (fun p =>
          match p.2.last_seen with
          | .iso t => decide (now - t ≤ 600)
          | .malformed _ => true) ∧
    (cleanup_offline_devices now s).2.recent_activities
      = s.recent_activities ∧
    (cleanup_offline_devices now s).2.command_queues = s.command_queues := by
  have hloop := cleanupLoop_self now s.device_statuses hnd hp
  refine ⟨?_, ?_, ?_, ?_⟩
  · simp [cleanup_offline_devices, hloop]
  · simp only [cleanup_offline_devices, hloop]
    refine List.filter_congr ?_
    intro p hmem
    have hpp : parseable p.2.last_seen = true := by
      rw [List.all_eq_true] at hp
      exact hp p hmem
    cases hts : p.2.last_seen with
    | malformed str => rw [hts] at hpp; simp [parseable] at hpp
    | iso t =>
      simp only [staleB, hts]
      rw [← decide_not, decide_eq_decide, stale_iff]
      exact not_lt
  · simp [cleanup_offline_devices, hloop]
  · simp [cleanup_offline_devices, hloop]

/-- A two-device state: `"old"` last seen at instant 0, `"new"` at 500. -/
def c3State : ServerState :=
  device_heartbeat 500 "new" [] (device_heartbeat 0 "old" [] initState)

/-- Witness for **C3** at `now = 1000`: `"old"` (1000 s stale) is evicted,
`"new"` (500 s stale) is kept with its row intact, nothing raises, and the
other two maps are untouched. -/
theorem eviction_exact_witness :
    (cleanup_offline_devices 1000 c3State).1 = none ∧
    (cleanup_offline_devices 1000 c3State).2.device_statuses
      = c3State.device_statuses.filter (fun p =>
          match p.2.last_seen with
          | .iso t => decide (1000 - t ≤ 600)
          | .malformed _ => true) ∧
    (cleanup_offline_devices 1000 c3State).2.recent_activities
      = c3State.recent_activities ∧
    (cleanup_offline_devices 1000 c3State).2.command_queues
      = c3State.command_queues :=
  eviction_exact 1000 c3State (by decide) (by decide)

/-! ## C5: eviction failure surfaced at the boundary -/

/-- Even when it raises part-way, the eviction loop only ever removes
entries: its final map is a subsequence of the one it started from. -/
theorem cleanupLoop_sublist (now : Int) :
    ∀ (l m : List (String × DeviceStatus)),
    (cleanupLoop now l m).2.Sublist m := by
  intro l
  induction l with
  | nil => intro m; exact List.Sublist.refl m
  | cons p rest ih =>
    intro m
    obtain ⟨pid, pst⟩ := p
    cases hts : pst.last_seen with
    | malformed str =>
      have hfrom : fromisoformat pst.last_seen
          = .error ("ValueError: Invalid isoformat string: " ++ str) := by
        rw [hts]; rfl
      simp [cleanupLoop, hfrom]
    | iso t =>
      have hfrom : fromisoformat pst.last_seen = .ok t := by rw [hts]; rfl
      simp only [cleanupLoop, hfrom]
      by_cases hst : ((now - t : ℚ) / 60 > 10)
      · rw [if_pos hst]
        exact (ih (aerase pid m)).trans (aerase_sublist pid m)
      · rw [if_neg hst]
        exact ih m

/-- **C5 (amended).** When eviction raises (e.g. on an unparseable stored
`last_seen`), `/api/status/all` catches the raise at the boundary and returns
HTTP 500 with a JSON body holding only an `error` message (no `success` key);
the activity logs and command queues are untouched, and the status map is
only ever shrunk — but status rows already found stale before the failing
entry have been evicted by the failed request. -/
theorem eviction_error_surfaced (now : Int) (s : ServerState) (e : String)
    (h : (cleanup_offline_devices now s).1 = some e) :
    get_all_status now s
      = (.err [("error", .str e)] 500, (cleanup_offline_devices now s).2) ∧
    (cleanup_offline_devices now s).2.recent_activities
      = s.recent_activities ∧
    (cleanup_offline_devices now s).2.command_queues = s.command_queues ∧
    (cleanup_offline_devices now s).2.device_statuses.Sublist
      s.device_statuses := by
  refine ⟨?_, rfl, rfl, cleanupLoop_sublist now s.device_statuses s.device_statuses⟩
  simp only [get_all_status, h]

/-- A well-formed `"online"` status row last seen at instant `t`. -/
def isoRow (t : Int) : DeviceStatus :=
  { status := "online", last_seen := .iso t, uptime_hours := .num 0,
    cpu_usage := .num 0, actions_today := .obj [], next_scheduled := .null,
    content_version := .str "unknown", twitter_logged_in := .bool false,
    last_activity := .never }

/-- A status row whose stored `last_seen` string is unparseable. -/
def malformedRow : DeviceStatus :=
  { status := "online", last_seen := .malformed "garbage",
    uptime_hours := .num 0, cpu_usage := .num 0, actions_today := .obj [],
    next_scheduled := .null, content_version := .str "unknown",
    twitter_logged_in := .bool false, last_activity := .never }

/-- A registry with stale `"a"` (instant 0) before unparseable `"b"`. -/
def c5State : ServerState :=
  { device_statuses := [("a", isoRow 0), ("b", malformedRow)]
    command_queues := []
    recent_activities := [] }

/-- Counterexample to **C5** as stated: at `now = 100000` the eviction raise
is surfaced with HTTP 500, but the body carries no `success` key at all
(so no `success:false`), and device `"a"` — stale and iterated before the
failing entry — has been evicted by the failed operation. -/
theorem eviction_error_counterexample :
    (alookup "a" c5State.device_statuses).isSome = true ∧
    (get_all_status 100000 c5State).1
      = .err [("error",
          .str "ValueError: Invalid isoformat string: garbage")] 500 ∧
    (match (get_all_status 100000 c5State).1 with
     | .err body _ => alookup "success" body
     | .ok _ _ _ _ => some (JVal.bool true)) = none ∧
    alookup "a" (get_all_status 100000 c5State).2.device_statuses = none :=
  ⟨rfl, rfl, rfl, rfl⟩

/-- Witness for the amended **C5** at the concrete failing state. -/
theorem eviction_error_surfaced_witness :
    get_all_status 100000 c5State
      = (.err [("error",
          .str "ValueError: Invalid isoformat string: garbage")] 500,
         (cleanup_offline_devices 100000 c5State).2) ∧
    (cleanup_offline_devices 100000 c5State).2.recent_activities
      = c5State.recent_activities ∧
    (cleanup_offline_devices 100000 c5State).2.command_queues
      = c5State.command_queues ∧
    (cleanup_offline_devices 100000 c5State).2.device_statuses.Sublist
      c5State.device_statuses :=
  eviction_error_surfaced 100000 c5State
    "ValueError: Invalid isoformat string: garbage" rfl

/-! ## C1: fleet broadcast -/

/-- `add_command` sets the device's queue to its old content (empty when
absent) with the new command appended at the tail. -/
theorem add_command_queue (now : Int) (device_id action : String)
    (params : List (String × JVal)) (s : ServerState) :
    alookup device_id (add_command now device_id action params s).command_queues
      = some ((alookup device_id s.command_queues).getD []
          ++ [mkCommand now action params]) := by
  cases hq : alookup device_id s.command_queues with
  | some q => simp [add_command, hq, alookup_aset_self]
  | none => simp [add_command, hq, alookup_aset_self]

/-- `add_command` leaves every other device's queue binding unchanged. -/
theorem add_command_frame (now : Int) (device_id action : String)
    (params : List (String × JVal)) (s : ServerState) (id₂ : String)
    (h : id₂ ≠ device_id) :
    alookup id₂ (add_command now device_id action params s).command_queues
      = alookup id₂ s.command_queues := by
  cases hq : alookup device_id s.command_queues with
  | some q => simp [add_command, hq, alookup_aset_ne _ _ h]
  | none => simp [add_command, hq, alookup_aset_ne _ _ h]

/-- The broadcast loop returns exactly the key list it walked. -/
theorem broadcastLoop_ids (clock : Nat → Int) :
    ∀ (l : List String) (i : Nat) (s : ServerState),
    (broadcastLoop clock i l s).2 = l := by
  intro l
  induction l with
  | nil => intro i s; rfl
  | cons hd rest ih =>
    intro i s
    simp only [broadcastLoop, ih]

/-- The broadcast loop never touches the registry. -/
theorem broadcastLoop_statuses (clock : Nat → Int) :
    ∀ (l : List String) (i : Nat) (s : ServerState),
    (broadcastLoop clock i l s).1.device_statuses = s.device_statuses := by
  intro l
  induction l with
  | nil => intro i s; rfl
  | cons hd rest ih =>
    intro i s
    exact ih (i + 1) _

/-- Device ids the broadcast loop does not visit keep their queue binding. -/
theorem broadcastLoop_frame (clock : Nat → Int) :
    ∀ (l : List String) (i : Nat) (s : ServerState) (id : String), id ∉ l →
    alookup id (broadcastLoop clock i l s).1.command_queues
      = alookup id s.command_queues := by
  intro l
  induction l with
  | nil => intro i s id _; rfl
  | cons hd rest ih =>
    intro i s id h
    simp only [List.mem_cons] at h
    push_neg at h
    exact (ih (i + 1) _ id h.2).trans
      (add_command_frame (clock i) hd "emergency_stop"
        [("priority", .str "critical")] s id h.1)

/-- The `j`-th visited device's queue after the broadcast loop: its old
content with exactly one `emergency_stop` command appended, stamped with the
clock of the `j`-th iteration. -/
theorem broadcastLoop_get (clock : Nat → Int) :
    ∀ (l : List String), l.Nodup →
    ∀ (i : Nat) (s : ServerState) (j : Nat) (hj : j < l.length),
    alookup (l.get ⟨j, hj⟩) (broadcastLoop clock i l s).1.command_queues
      = some ((alookup (l.get ⟨j, hj⟩) s.command_queues).getD []
          ++ [mkCommand (clock (i + j)) "emergency_stop"
              [("priority", .str "critical")]]) := by
  intro l
  induction l with
  | nil =>
    intro _ i s j hj
    exact absurd hj (Nat.not_lt_zero j)
  | cons hd rest ih =>
    intro hnd i s j hj
    rw [List.nodup_cons] at hnd
    cases j with
    | zero =>
      show alookup hd (broadcastLoop clock (i + 1) rest _).1.command_queues
        = some ((alookup hd s.command_queues).getD []
            ++ [mkCommand (clock (i + 0)) "emergency_stop"
                [("priority", .str "critical")]])
      rw [broadcastLoop_frame clock rest (i + 1) _ hd hnd.1,
        add_command_queue, Nat.add_zero]
    | succ j₀ =>
      have hj₀ : j₀ < rest.length := Nat.lt_of_succ_lt_succ hj
      have hgv : (hd :: rest).get ⟨j₀ + 1, hj⟩ = rest.get ⟨j₀, hj₀⟩ := rfl
      have hred : (broadcastLoop clock i (hd :: rest) s).1
          = (broadcastLoop clock (i + 1) rest
              (add_command (clock i) hd "emergency_stop"
                [("priority", .str "critical")] s)).1 := rfl
      have hmem : rest.get ⟨j₀, hj₀⟩ ∈ rest := List.get_mem rest j₀ hj₀
      rw [hgv, hred, ih hnd.2 (i + 1) _ j₀ hj₀,
        add_command_frame (clock i) hd "emergency_stop"
          [("priority", .str "critical")] s (rest.get ⟨j₀, hj₀⟩)
          (fun hc => hnd.1 (hc ▸ hmem)),
        Nat.add_right_comm i 1 j₀]
      rfl

/-- **C1 (amended).** A broadcast issued over the N registered devices
appends exactly one `emergency_stop` command to each of their queues and to
nobody else's; the command enqueued at the `j`-th iteration carries
`command_id = "emergency_stop_" + int(clock j)` — so commands of one
broadcast share a single command_id whenever the loop runs within one coarse
second, rather than carrying distinct ones; and a device first registered
(by heartbeat) after the broadcast, never having been enqueued or polled,
has an empty queue. -/
theorem broadcast_per_device (s : ServerState) (clock : Nat → Int)
    (hnd : (s.device_statuses.map Prod.fst).Nodup) :
    (emergency_stop_all clock s).2 = s.device_statuses.map Prod.fst ∧
    (∀ (j : Nat) (hj : j < (s.device_statuses.map Prod.fst).length),
      alookup ((s.device_statuses.map Prod.fst).get ⟨j, hj⟩)
          (emergency_stop_all clock s).1.command_queues
        = some ((alookup ((s.device_statuses.map Prod.fst).get ⟨j, hj⟩)
              s.command_queues).getD []
            ++ [mkCommand (clock j) "emergency_stop"
                [("priority", .str "critical")]])) ∧
    (∀ id, id ∉ s.device_statuses.map Prod.fst →
      alookup id (emergency_stop_all clock s).1.command_queues
        = alookup id s.command_queues) ∧
    (∀ (newId : String) (now : Int) (report : List (String × JVal)),
      newId ∉ s.device_statuses.map Prod.fst →
      alookup newId s.command_queues = none →
      alookup newId (device_heartbeat now newId report
          (emergency_stop_all clock s).1).command_queues = none) ∧
    (∀ i : Nat,
      (mkCommand (clock i) "emergency_stop"
          [("priority", .str "critical")]).command_id
        = "emergency_stop_" ++ toString (clock i)) := by
  refine ⟨broadcastLoop_ids clock _ 0 s, fun j hj => ?_, fun id h => ?_,
    fun newId now report h hq => ?_, fun i => rfl⟩
  · have hres := broadcastLoop_get clock (s.device_statuses.map Prod.fst) hnd
      0 s j hj
    rwa [Nat.zero_add] at hres
  · exact broadcastLoop_frame clock _ 0 s id h
  · show alookup newId
        (broadcastLoop clock 0 (s.device_statuses.map Prod.fst) s).1.command_queues
      = none
    rw [broadcastLoop_frame clock _ 0 s newId h, hq]

/-- Three devices registered at instant 0. -/
def c1State : ServerState :=
  device_heartbeat 0 "gamma" []
    (device_heartbeat 0 "beta" [] (device_heartbeat 0 "alpha" [] initState))

/-- All `command_id`s enqueued by a broadcast over `c1State` whose three
enqueues happen within epoch second 1000. -/
def c1AllIds : List String :=
  (((emergency_stop_all (fun _ => 1000) c1State).1.command_queues.map
    Prod.snd).flatten).map (fun c => c.command_id)

/-- Counterexample to **C1** as stated: broadcasting to 3 devices within one
coarse second enqueues three commands whose `command_id`s are all equal
(`action + int(timestamp)` collides), not pairwise distinct. -/
theorem broadcast_ids_collide :
    c1AllIds
      = ["emergency_stop_1000", "emergency_stop_1000", "emergency_stop_1000"] ∧
    ¬ c1AllIds.Nodup :=
  ⟨rfl, by decide⟩

/-- Witness for the amended **C1** on `c1State`: each of the three queues
gets exactly one command stamped `emergency_stop_1000`, an unregistered id
is untouched, and a device registered after the broadcast drains nothing. -/
theorem broadcast_per_device_witness :
    (emergency_stop_all (fun _ => 1000) c1State).2
      = ["alpha", "beta", "gamma"] ∧
    alookup "alpha"
        (emergency_stop_all (fun _ => 1000) c1State).1.command_queues
      = some [mkCommand 1000 "emergency_stop" [("priority", .str "critical")]] ∧
    alookup "delta"
        (emergency_stop_all (fun _ => 1000) c1State).1.command_queues
      = none ∧
    alookup "delta" (device_heartbeat 2000 "delta" []
        (emergency_stop_all (fun _ => 1000) c1State).1).command_queues
      = none :=
  ⟨((broadcast_per_device c1State (fun _ => 1000) (by decide)).1).trans rfl,
   (broadcast_per_device c1State (fun _ => 1000) (by decide)).2.1 0 (by decide),
   (((broadcast_per_device c1State (fun _ => 1000) (by decide)).2.2.1 "delta"
     (by decide)).trans rfl),
   (broadcast_per_device c1State (fun _ => 1000) (by decide)).2.2.2.1 "delta"
     2000 [] (by decide) rfl⟩

/-! ## C4: non-mapping `actions_today` in analytics -/

/-- A device whose heartbeat reported `actions_today` as a bare number. -/
def c4State : ServerState :=
  device_heartbeat 0 "d1" [("actions_today", JVal.num 5)] initState

/-- **C4** evaluated at the failing input: with a stored `actions_today`
that is a number rather than a mapping, the per-category `.get` calls
(`src/app.py` lines 186-188) raise `AttributeError` before the
`isinstance`-guarded sum is reached, so `/api/status/analytics` returns the
`except`-branch `{'error': ...}` with HTTP 500 instead of coercing the
counts to 0 and returning a result. -/
theorem analytics_nonmapping_raises :
    (alookup "d1" c4State.device_statuses).map (fun st => st.actions_today)
      = some (JVal.num 5) ∧
    (get_analytics 0 c4State).1
      = .err [("error",
          .str "AttributeError: object has no attribute get")] 500 :=
  ⟨rfl, rfl⟩

/-! ## C8: every division guarded by a zero-denominator check -/

/-- **C8.** Whenever `/api/status/analytics` succeeds, each division's
zero-denominator guard yields 0: with 0 total devices every per-device
average, percentage and health field is 0 (and, the totals then being 0, so
are the action percentages and the efficiency); with 0 total actions the
three action percentages are 0; with 0 total uptime the efficiency is 0.
No division is reached when its denominator is 0. -/
theorem analytics_div_guarded (now : Int) (s : ServerState)
    (d : AnalyticsData) (s₁ : ServerState)
    (h : get_analytics now s = (.ok d, s₁)) :
    (d.total_devices = 0 →
      d.average_uptime_hours = 0 ∧ d.uptime_percentage = 0 ∧
      d.avg_actions_per_device = 0 ∧ d.device_health_score = 0 ∧
      d.tweet_percentage = 0 ∧ d.reply_percentage = 0 ∧
      d.retweet_percentage = 0 ∧ d.action_efficiency = 0) ∧
    (d.total_actions = 0 →
      d.tweet_percentage = 0 ∧ d.reply_percentage = 0 ∧
      d.retweet_percentage = 0) ∧
    (d.total_uptime_hours = 0 → d.action_efficiency = 0) := by
  simp only [get_analytics] at h
  cases hc : (cleanup_offline_devices now s).1 with
  | some e => simp [hc] at h
  | none =>
    simp only [hc] at h
    cases ht : analyticsTotals
        ((cleanup_offline_devices now s).2.device_statuses.map Prod.snd) with
    | error e => simp [ht] at h
    | ok t =>
      simp only [ht] at h
      cases hdd : deviceDetails
          (cleanup_offline_devices now s).2.device_statuses with
      | error e => simp [hdd] at h
      | ok details =>
        simp only [hdd] at h
        injection h with h1 h2
        injection h1 with hdata
        subst hdata
        refine ⟨fun h0 => ?_, fun h0 => ?_, fun h0 => ?_⟩
        · simp only at h0
          have hdev : (cleanup_offline_devices now s).2.device_statuses = [] :=
            List.length_eq_zero.mp h0
          rw [hdev] at ht
          simp only [List.map_nil, analyticsTotals] at ht
          injection ht with htt
          subst htt
          simp [hdev]
        · simp only at h0
          simp [h0]
        · simp only at h0
          simp [h0]

/-- The analytics payload of the empty fleet: every field zero or empty. -/
def c8Data : AnalyticsData :=
  { total_devices := 0, online_devices := 0, offline_devices := 0,
    total_uptime_hours := 0, average_uptime_hours := 0, total_actions := 0,
    tweets := 0, replies := 0, retweets := 0, tweet_percentage := 0,
    reply_percentage := 0, retweet_percentage := 0, device_details := [],
    avg_actions_per_device := 0, uptime_percentage := 0,
    action_efficiency := 0, device_health_score := 0, top_performers := [] }

/-- Witness for **C8**: with 0 registered devices the analytics succeed and
every percentage/ratio field is 0 — no division error occurs. -/
theorem analytics_div_guarded_witness :
    c8Data.average_uptime_hours = 0 ∧ c8Data.uptime_percentage = 0 ∧
    c8Data.avg_actions_per_device = 0 ∧ c8Data.device_health_score = 0 ∧
    c8Data.tweet_percentage = 0 ∧ c8Data.reply_percentage = 0 ∧
    c8Data.retweet_percentage = 0 ∧ c8Data.action_efficiency = 0 :=
  (analytics_div_guarded 0 initState c8Data initState
    (by simp [get_analytics, cleanup_offline_devices, cleanupLoop,
      analyticsTotals, deviceDetails, initState, c8Data])).1 rfl

/-! ## C9: `total_actions` sums all action kinds, not just the three -/

theorem except_bind_ok {α β : Type} (a : α) (f : α → Except String β) :
    (Except.ok a >>= f) = f a := rfl

theorem except_bind_error {α β : Type} (e : String) (f : α → Except String β) :
    ((Except.error e : Except String α) >>= f) = .error e := rfl

/-- Each device contributes `sum(actions_today.values())` — the sum over all
its action kinds — to `total_actions` (`src/app.py` line 189), independently
of the three category counters. -/
theorem totals_head_all_keys (st : DeviceStatus) (devs : List DeviceStatus)
    (t : Totals) (h : analyticsTotals (st :: devs) = .ok t) :
    ∃ (sa : ℚ) (acc : Totals),
      totalOfActions st.actions_today = .ok sa ∧
      analyticsTotals devs = .ok acc ∧
      t.actions = sa + acc.actions := by
  simp only [analyticsTotals] at h
  cases h1 : pyDictGet st.actions_today "tweets" (.num 0) >>= pyNum with
  | error e => rw [h1, except_bind_error] at h; cases h
  | ok tw =>
  rw [h1, except_bind_ok] at h
  cases h2 : pyDictGet st.actions_today "replies" (.num 0) >>= pyNum with
  | error e => rw [h2, except_bind_error] at h; cases h
  | ok rp =>
  rw [h2, except_bind_ok] at h
  cases h3 : pyDictGet st.actions_today "retweets" (.num 0) >>= pyNum with
  | error e => rw [h3, except_bind_error] at h; cases h
  | ok rt =>
  rw [h3, except_bind_ok] at h
  cases h4 : totalOfActions st.actions_today with
  | error e => rw [h4, except_bind_error] at h; cases h
  | ok sa =>
  rw [h4, except_bind_ok] at h
  cases h5 : pyNum st.uptime_hours with
  | error e => rw [h5, except_bind_error] at h; cases h
  | ok up =>
  rw [h5, except_bind_ok] at h
  cases h6 : analyticsTotals devs with
  | error e => rw [h6, except_bind_error] at h; cases h
  | ok acc =>
  rw [h6, except_bind_ok] at h
  injection h with ht
  exact ⟨sa, acc, rfl, rfl, by rw [← ht]⟩

/-- One device reporting `{tweets: 4, likes: 4}` — an action kind outside
the three categories. -/
def c9State : ServerState :=
  device_heartbeat 0 "d1"
    [("actions_today", JVal.obj [("tweets", JVal.num 4), ("likes", JVal.num 4)])]
    initState

/-- The `device_details` row the analytics build for `c9State`'s device. -/
def c9Detail : DeviceDetail :=
  { id := "d1", name := "d1".replace "bot_" "", status := "online",
    uptime_hours := .num 0,
    actions_today := .obj [("tweets", JVal.num 4), ("likes", JVal.num 4)],
    total_actions := 8, last_activity := .never, cpu_usage := .num 0,
    memory_usage := .num 0 }

/-- The analytics payload for `c9State`: `total_actions = 8` counts the
`likes`, while `tweets + replies + retweets = 4`. -/
def c9Data : AnalyticsData :=
  { total_devices := 1, online_devices := 1, offline_devices := 0,
    total_uptime_hours := 0, average_uptime_hours := 0, total_actions := 8,
    tweets := 4, replies := 0, retweets := 0, tweet_percentage := 50,
    reply_percentage := 0, retweet_percentage := 0,
    device_details := [c9Detail], avg_actions_per_device := 8,
    uptime_percentage := 100, action_efficiency := 0,
    device_health_score := 100, top_performers := [c9Detail] }

/-- **C9.** `total_actions` accumulates the sum over all keys of every
device's `actions_today` (not only tweets/replies/retweets); concretely, a
device reporting `{tweets: 4, likes: 4}` yields `total_actions = 8`, which
strictly exceeds `tweets + replies + retweets = 4`, and the three action
percentages sum to 50, strictly less than 100. -/
theorem analytics_total_actions_all_keys :
    (∀ (st : DeviceStatus) (devs : List DeviceStatus) (t : Totals),
      analyticsTotals (st :: devs) = .ok t →
      ∃ (sa : ℚ) (acc : Totals),
        totalOfActions st.actions_today = .ok sa ∧
        analyticsTotals devs = .ok acc ∧
        t.actions = sa + acc.actions) ∧
    ((get_analytics 0 c9State).1 = .ok c9Data ∧
     c9Data.total_actions = 8 ∧
     c9Data.tweets + c9Data.replies + c9Data.retweets = 4 ∧
     c9Data.tweets + c9Data.replies + c9Data.retweets
       < c9Data.total_actions ∧
     c9Data.tweet_percentage + c9Data.reply_percentage
       + c9Data.retweet_percentage = 50 ∧
     c9Data.tweet_percentage + c9Data.reply_percentage
       + c9Data.retweet_percentage < 100) := by
  refine ⟨totals_head_all_keys, ?_, rfl, by norm_num [c9Data],
    by norm_num [c9Data], by norm_num [c9Data], by norm_num [c9Data]⟩
  have hclean : cleanup_offline_devices 0 c9State = (none, c9State) := rfl
  have ht : analyticsTotals (c9State.device_statuses.map Prod.snd)
      = .ok ⟨8, 4, 0, 0, 0⟩ := by
    simp [c9State, device_heartbeat, initState, aset, alookup, jget,
      analyticsTotals, pyDictGet, pyNum, pySum, totalOfActions,
      except_bind_ok, except_bind_error]
    norm_num
  have hdd : deviceDetails c9State.device_statuses = .ok [c9Detail] := by
    simp [c9State, device_heartbeat, initState, aset, alookup, jget,
      deviceDetails, totalOfActions, pySum, pyNum, c9Detail,
      except_bind_ok, except_bind_error]
    norm_num
  simp only [get_analytics, hclean, ht, hdd]
  simp [c9Data, c9State, device_heartbeat, initState, aset, alookup,
    List.mergeSort, c9Detail]
  norm_num

/-- Witness for the universal part of **C9** at a device whose
`actions_today` is the empty mapping. -/
theorem analytics_total_actions_all_keys_witness :
    ∃ (sa : ℚ) (acc : Totals),
      totalOfActions (isoRow 0).actions_today = .ok sa ∧
      analyticsTotals [] = .ok acc ∧
      (⟨0 + 0, 0 + 0, 0 + 0, 0 + 0, 0 + 0⟩ : Totals).actions
        = sa + acc.actions :=
  analytics_total_actions_all_keys.1 (isoRow 0) []
    ⟨0 + 0, 0 + 0, 0 + 0, 0 + 0, 0 + 0⟩ rfl
